import Mathlib

/-!
Verification of the Vykso account and job ledger core: the Supabase SQL
stored procedures in database-schema.sql and migration-tier-update.sql,
and the credit computation of the dashboard VideoGenerator component.

Tables are embedded as Lean lists of rows; each SQL function becomes a
pure Lean function from the database state (and its arguments) to the
new database state together with its SQL return value.  A plpgsql
RAISE EXCEPTION aborts the surrounding transaction, so a function that
raises returns the input state unchanged together with the error.
-/

namespace Vykso

/-- A row of the credit_transactions table (database-schema.sql).
Columns: user_id, amount (signed; negative = debit), type, description. -/
structure CreditTransaction where
  user_id : Nat
  amount : Int
  type : String
  description : String
deriving DecidableEq

/-- A row of the profiles table (database-schema.sql), restricted to the
columns the accounting core reads or writes.  preferred_aspect models the
aspect-ratio column derived from the tier. -/
structure Profile where
  id : Nat
  full_name : String
  credits : Int
  plan : Option String
  plan_family : String
  preferred_aspect : String
deriving DecidableEq

/-- The database state: the profiles table and the append-only
credit_transactions table. -/
structure DB where
  profiles : List Profile
  credit_transactions : List CreditTransaction
deriving DecidableEq

/-- Errors raised by the ledger stored procedures:
RAISE EXCEPTION 'User not found' and RAISE EXCEPTION 'Insufficient credits'. -/
inductive LedgerError where
  | NotFound
  | InsufficientCredits
deriving DecidableEq

/-- SELECT credits FROM profiles WHERE id = uid (first matching row,
NULL when no row matches). -/
def creditsOf (db : DB) (uid : Nat) : Option Int :=
  (db.profiles.find? fun p => p.id == uid).map (·.credits)

/-- UPDATE profiles SET ... WHERE id = uid, applying g to every matching row. -/
def updateProfiles (db : DB) (uid : Nat) (g : Profile → Profile) : DB :=
  { db with profiles := db.profiles.map fun p => if p.id == uid then g p else p }

/-- FUNCTION decrement_credits(p_user_id, p_amount) of database-schema.sql:
reads the balance; raises NotFound when the SELECT returns NULL; raises
InsufficientCredits when current_credits < p_amount; otherwise subtracts
p_amount from the balance, inserts a debit transaction of -p_amount, and
returns the new balance.  An exception rolls the transaction back, so the
error branches return the database unchanged. -/
def decrement_credits (db : DB) (p_user_id : Nat) (p_amount : Int) :
    Except LedgerError Int × DB :=
  match creditsOf db p_user_id with
  | none => (.error .NotFound, db)
  | some current_credits =>
    if current_credits < p_amount then
      (.error .InsufficientCredits, db)
    else
      let db1 := updateProfiles db p_user_id fun p => { p with credits := p.credits - p_amount }
      let db2 := { db1 with credit_transactions :=
        db1.credit_transactions ++ [⟨p_user_id, -p_amount, "debit", "Video generation"⟩] }
      (.ok (current_credits - p_amount), db2)

/-- FUNCTION refund_credits(p_user_id, p_amount) of database-schema.sql:
adds p_amount to the balance (UPDATE ... RETURNING credits, which yields
NULL when no row matches), then inserts a refund transaction; there is no
account-existence check. -/
def refund_credits (db : DB) (p_user_id : Nat) (p_amount : Int) :
    Option Int × DB :=
  let db1 := updateProfiles db p_user_id fun p => { p with credits := p.credits + p_amount }
  let current_credits := creditsOf db1 p_user_id
  let db2 := { db1 with credit_transactions :=
    db1.credit_transactions ++ [⟨p_user_id, p_amount, "refund", "Video generation refund"⟩] }
  (current_credits, db2)

/-- FUNCTION add_credits(p_user_id, p_amount, p_type) of
database-schema.sql: same shape as refund_credits with the transaction
tagged p_type and a description chosen by CASE on p_type. -/
def add_credits (db : DB) (p_user_id : Nat) (p_amount : Int) (p_type : String) :
    Option Int × DB :=
  let db1 := updateProfiles db p_user_id fun p => { p with credits := p.credits + p_amount }
  let current_credits := creditsOf db1 p_user_id
  let db2 := { db1 with credit_transactions :=
    db1.credit_transactions ++ [⟨p_user_id, p_amount, p_type,
      if p_type == "subscription" then "Monthly subscription credits" else "Credit purchase"⟩] }
  (current_credits, db2)

/-- TRIGGER FUNCTION handle_new_user of database-schema.sql: on signup,
INSERT INTO profiles (id, full_name, credits, plan) VALUES (uid, name, 10, 'free').
No credit transaction is recorded for the starting grant.  The row takes the
table defaults for plan_family ('creator') and the aspect column ('9:16'). -/
def handle_new_user (db : DB) (uid : Nat) (name : String) : DB :=
  { db with profiles := db.profiles ++ [⟨uid, name, 10, some "free", "creator", "9:16"⟩] }

/-- Sum of the amounts of the credit transactions recorded for uid. -/
def txnSum (db : DB) (uid : Nat) : Int :=
  ((db.credit_transactions.filter fun t => t.user_id == uid).map (·.amount)).sum

/-- SQL LOWER, embedded character-wise (the plan names in play are ASCII,
where LOWER agrees with per-character lowercasing). -/
def sqlLower (s : String) : String := ⟨s.data.map Char.toLower⟩

/-- SQL LIKE with the pattern percent, escaped underscore, p, r, o: since
percent matches any run of characters, the pattern holds iff the string
ends with the literal four-character suffix. -/
def sqlEndsWith (s suffix : String) : Bool := suffix.data.isSuffixOf s.data

/-- FUNCTION get_tier_from_plan(plan_name) of migration-tier-update.sql.
NULL or empty plan is creator; a lowercased name that LIKE-matches the
suffix pattern is professional; membership of the lowercased name in the
explicit legacy list is professional; every other name is creator. -/
def get_tier_from_plan (plan_name : Option String) : String :=
  match plan_name with
  | none => "creator"
  | some s =>
    if s = "" then "creator"
    else if sqlEndsWith (sqlLower s) "_pro" then "professional"
    else if sqlLower s ∈ ["premium_pro", "pro_pro", "max_pro", "starter_pro"] then "professional"
    else "creator"

/-- FUNCTION get_aspect_ratio_from_tier(tier_name) of
migration-tier-update.sql: 16:9 for professional, else 9:16. -/
def aspectFromTier (tier_name : String) : String :=
  if tier_name = "professional" then "16:9" else "9:16"

/-- TRIGGER FUNCTION update_tier_on_plan_change of migration-tier-update.sql:
BEFORE INSERT OR UPDATE OF plan, recomputes plan_family and the aspect
column of the row from its plan. -/
def update_tier_on_plan_change (p : Profile) : Profile :=
  let fam := get_tier_from_plan p.plan
  { p with plan_family := fam, preferred_aspect := aspectFromTier fam }

/-- UPDATE profiles SET plan = newPlan WHERE id = uid, as the billing
webhook applies a plan change; the BEFORE UPDATE OF plan trigger rewrites
the derived columns of each updated row.  Nothing else is touched. -/
def apply_plan_change (db : DB) (uid : Nat) (newPlan : String) : DB :=
  updateProfiles db uid fun p => update_tier_on_plan_change { p with plan := some newPlan }

/-- The simplified classifier the spec describes: professional iff the
lowercased plan name ends with the four-character suffix, with NULL (and
hence the empty string) mapping to creator.  Stated for comparison with
get_tier_from_plan (claim C8). -/
def tierBySuffix (plan_name : Option String) : String :=
  match plan_name with
  | none => "creator"
  | some s => if sqlEndsWith (sqlLower s) "_pro" then "professional" else "creator"

/-! VideoGenerator.tsx (first variant): client-side credit computation and
insufficient-credits guard in handleGenerate. -/

/-- The quality setting of the VideoGenerator form. -/
inductive Quality where
  | basic
  | pro_720p
  | pro_1080p
deriving DecidableEq

/-- numClips = Math.ceil(duration / 10) in VideoGenerator.handleGenerate. -/
def numClips (duration : Nat) : Nat := (duration + 9) / 10

/-- requiredCredits in VideoGenerator.handleGenerate: numClips for basic,
numClips * 3 for pro_720p, numClips * 5 for pro_1080p. -/
def requiredCredits (duration : Nat) (q : Quality) : Nat :=
  match q with
  | .basic => numClips duration
  | .pro_720p => numClips duration * 3
  | .pro_1080p => numClips duration * 5

/-- The generation request VideoGenerator.handleGenerate posts to the
backend when the client-side credit check passes. -/
structure GenerateRequest where
  duration : Nat
  quality : Quality
deriving DecidableEq

/-- The guard in VideoGenerator.handleGenerate: when the user's credits
are below requiredCredits, an insufficient-credits message is shown and no
request is sent (none); otherwise the request is sent. -/
def handleGenerate (credits : Int) (duration : Nat) (q : Quality) :
    Option GenerateRequest :=
  if credits < (requiredCredits duration q : Int) then none
  else some ⟨duration, q⟩

/-! Spec-modelled backend entry points.  The FastAPI service that validates
durations and consumes generation-provider signals is not part of this
repository snapshot (only its SQL procedures, dashboard callers and
deployment guides are), so the two entry points below are modelled from
the specification and verified against that model. -/

/-- Error returned when a professional account requests a duration outside
the allowed bounds. -/
inductive DurationError where
  | InvalidDuration
deriving DecidableEq

/-- Modelled from the spec: the backend duration validation at job
creation is missing from the snapshot.  Section 4.3: reject with
InvalidDuration if a professional account requests outside 6..60 seconds
inclusive, and silently override the duration for creator accounts to the
fixed per-model value (8 s for the VEO family, 10 s for Sora). -/
def validate_duration (tier : String) (fixedDuration : Nat) (requested : Nat) :
    Except DurationError Nat :=
  if tier = "professional" then
    if 6 ≤ requested ∧ requested ≤ 60 then .ok requested
    else .error .InvalidDuration
  else .ok fixedDuration

/-- A row of the video_jobs table (database-schema.sql), restricted to the
columns the lifecycle logic touches.  duration is also the number of
credits debited for the job (1 credit = 1 second). -/
structure VideoJob where
  id : Nat
  user_id : Nat
  status : String
  progress : Int
  video_url : Option String
  duration : Nat
  error : Option String
deriving DecidableEq

/-- The combined persistent state: the accounts database and the
video_jobs table. -/
structure Sys where
  db : DB
  jobs : List VideoJob
deriving DecidableEq

/-- A terminal-state signal from the generation provider for a job. -/
inductive TerminalSignal where
  | jobCompleted (url : String)
  | jobFailed (msg : String)
deriving DecidableEq

/-- Modelled from the spec: the backend webhook handler that consumes
provider terminal signals is missing from the snapshot.  Section 4.3: a
signal for an unknown or already-terminal job is a no-op; a completion
signal sets status completed, progress 100 and the video URL; a failure
signal sets status failed with the error message and refunds the debited
amount via refund_credits exactly once. -/
def apply_terminal_signal (s : Sys) (jobId : Nat) (sig : TerminalSignal) : Sys :=
  match s.jobs.find? fun j => j.id == jobId with
  | none => s
  | some j =>
    if j.status = "completed" ∨ j.status = "failed" then s
    else
      match sig with
      | .jobCompleted url =>
        { s with jobs := s.jobs.map fun k =>
            if k.id == jobId then
              { k with status := "completed", progress := 100, video_url := some url }
            else k }
      | .jobFailed msg =>
        { db := (refund_credits s.db j.user_id (j.duration : Int)).2,
          jobs := s.jobs.map fun k =>
            if k.id == jobId then { k with status := "failed", error := some msg }
            else k }

/-! Helper lemmas about the list-embedded tables. -/

/-- Updating every row whose key matches uid commutes with looking the
first such row up, provided the update preserves the key. -/
theorem find_map_upd {α : Type} (key : α → Nat) (g : α → α) (uid : Nat)
    (hg : ∀ a, key (g a) = key a) :
    ∀ l : List α,
      (l.map fun a => if key a == uid then g a else a).find? (fun a => key a == uid)
        = (l.find? fun a => key a == uid).map g
  | [] => rfl
  | a :: l => by
    by_cases h : key a = uid
    · have h2 : (key a == uid) = true := by simp [h]
      have h1 : (key (g a) == uid) = true := by simp [hg a, h]
      rw [List.map_cons, if_pos h2,
        List.find?_cons_of_pos (p := fun x => key x == uid) _ h1,
        List.find?_cons_of_pos (p := fun x => key x == uid) _ h2]
      rfl
    · have h2 : ¬((key a == uid) = true) := by simp [h]
      rw [List.map_cons, if_neg h2,
        List.find?_cons_of_neg (p := fun x => key x == uid) _ h2,
        List.find?_cons_of_neg (p := fun x => key x == uid) _ h2,
        find_map_upd key g uid hg l]

/-- A row update whose WHERE clause matches no row leaves the table
unchanged. -/
theorem map_upd_of_none {α : Type} (key : α → Nat) (g : α → α) (uid : Nat) :
    ∀ l : List α, l.find? (fun a => key a == uid) = none →
      (l.map fun a => if key a == uid then g a else a) = l
  | [], _ => rfl
  | a :: l, h => by
    rw [List.find?_eq_none] at h
    have ha : ¬((key a == uid) = true) := h a (by simp)
    rw [List.map_cons, if_neg ha,
      map_upd_of_none key g uid l (List.find?_eq_none.mpr fun x hx => h x (by simp [hx]))]

/-- Appending one transaction adds its amount to the per-account sum when
it belongs to the account, and nothing otherwise. -/
theorem txnSum_append (pr : List Profile) (l : List CreditTransaction)
    (t : CreditTransaction) (uid : Nat) :
    txnSum ⟨pr, l ++ [t]⟩ uid
      = txnSum ⟨pr, l⟩ uid + (if t.user_id == uid then t.amount else 0) := by
  by_cases h : t.user_id = uid <;>
    simp [txnSum, List.filter_append, h]

/-- txnSum only reads the transaction table. -/
theorem txnSum_profiles_irrel (pr pr2 : List Profile)
    (l : List CreditTransaction) (uid : Nat) :
    txnSum ⟨pr, l⟩ uid = txnSum ⟨pr2, l⟩ uid := rfl

/-- Row lookup after updateProfiles, with a key-preserving update. -/
theorem find_updateProfiles (db : DB) (uid : Nat) (g : Profile → Profile)
    (hg : ∀ p, (g p).id = p.id) :
    (updateProfiles db uid g).profiles.find? (fun q => q.id == uid)
      = (db.profiles.find? fun q => q.id == uid).map g :=
  find_map_upd (fun p => p.id) g uid hg db.profiles

/-! Claim theorems. -/

/-- C1: for an existing account, a debit whose amount exceeds the current
balance fails with InsufficientCredits and, the raised exception rolling
the transaction back, leaves credits and the transaction log unchanged
(the returned state is the input state, so no partial effect and no
transaction recorded); and every successful debit returns the account's
new stored balance, which is never negative. -/
theorem debit_insufficient_no_effect_no_negative
    (db : DB) (uid : Nat) (amt : Int) (p : Profile)
    (hp : db.profiles.find? (fun q => q.id == uid) = some p) :
    (p.credits < amt →
      decrement_credits db uid amt = (.error .InsufficientCredits, db)) ∧
    (∀ r db2, decrement_credits db uid amt = (.ok r, db2) →
      r = p.credits - amt ∧ 0 ≤ r ∧ creditsOf db2 uid = some r ∧
      db2.credit_transactions
        = db.credit_transactions ++ [⟨uid, -amt, "debit", "Video generation"⟩]) := by
  have hc : creditsOf db uid = some p.credits := by simp [creditsOf, hp]
  constructor
  · intro hlt
    simp [decrement_credits, hc, hlt]
  · intro r db2 hok
    by_cases hlt : p.credits < amt
    · simp [decrement_credits, hc, hlt] at hok
    · simp only [decrement_credits, hc, if_neg hlt, Prod.mk.injEq,
        Except.ok.injEq] at hok
      obtain ⟨hr, hdb⟩ := hok
      subst hr
      subst hdb
      refine ⟨rfl, by omega, ?_, rfl⟩
      show ((updateProfiles db uid fun q => { q with credits := q.credits - amt }).profiles.find?
          fun q => q.id == uid).map (·.credits) = some (p.credits - amt)
      rw [find_updateProfiles db uid (fun q => { q with credits := q.credits - amt })
        (fun _ => rfl), hp]
      rfl

/-- Witness for C1: a concrete account with 5 credits; a debit of 7 fails
with InsufficientCredits and changes nothing, a debit of 3 succeeds with
new balance 2. -/
theorem debit_insufficient_no_effect_no_negative_witness :
    decrement_credits ⟨[⟨1, "u", 5, some "free", "creator", "9:16"⟩], []⟩ 1 7
      = (.error .InsufficientCredits,
         ⟨[⟨1, "u", 5, some "free", "creator", "9:16"⟩], []⟩) ∧
    ∀ r db2,
      decrement_credits ⟨[⟨1, "u", 5, some "free", "creator", "9:16"⟩], []⟩ 1 3
        = (.ok r, db2) → r = 2 :=
  ⟨(debit_insufficient_no_effect_no_negative _ 1 7
      ⟨1, "u", 5, some "free", "creator", "9:16"⟩ (by decide)).1 (by decide),
   fun r db2 h => by
    have h2 := ((debit_insufficient_no_effect_no_negative _ 1 3
      ⟨1, "u", 5, some "free", "creator", "9:16"⟩ (by decide)).2 r db2 h).1
    simpa using h2⟩

/-- C9: decrement_credits performs no positivity check on its amount: for
an existing account with non-negative balance and any amount at most 0,
the insufficiency check cannot fire, the debit succeeds, a transaction of
amount -p_amount is recorded, and the returned balance is the old balance
minus the amount — unchanged for a zero amount, strictly larger for a
negative amount. -/
theorem debit_no_positivity_check
    (db : DB) (uid : Nat) (amt : Int) (p : Profile)
    (hp : db.profiles.find? (fun q => q.id == uid) = some p)
    (h0 : 0 ≤ p.credits) (hle : amt ≤ 0) :
    ∃ db2, decrement_credits db uid amt = (.ok (p.credits - amt), db2) ∧
      creditsOf db2 uid = some (p.credits - amt) ∧
      db2.credit_transactions
        = db.credit_transactions ++ [⟨uid, -amt, "debit", "Video generation"⟩] ∧
      p.credits ≤ p.credits - amt ∧
      (amt < 0 → p.credits < p.credits - amt) := by
  have hc : creditsOf db uid = some p.credits := by simp [creditsOf, hp]
  have hlt : ¬(p.credits < amt) := by omega
  have hmain : decrement_credits db uid amt
      = (.ok (p.credits - amt),
         ⟨(updateProfiles db uid fun q => { q with credits := q.credits - amt }).profiles,
          db.credit_transactions ++ [⟨uid, -amt, "debit", "Video generation"⟩]⟩) := by
    simp only [decrement_credits, hc, if_neg hlt]
    rfl
  refine ⟨_, hmain, ?_, rfl, by omega, by omega⟩
  show ((updateProfiles db uid fun q => { q with credits := q.credits - amt }).profiles.find?
      fun q => q.id == uid).map (·.credits) = some (p.credits - amt)
  rw [find_updateProfiles db uid (fun q => { q with credits := q.credits - amt })
    (fun _ => rfl), hp]
  rfl

/-- Witness for C9: a zero-amount debit on a 5-credit account succeeds and
returns 5; a debit of -4 succeeds and returns 9. -/
theorem debit_no_positivity_check_witness :
    (∃ db2, decrement_credits ⟨[⟨1, "u", 5, some "free", "creator", "9:16"⟩], []⟩ 1 0
        = (.ok 5, db2)) ∧
    ∃ db2, decrement_credits ⟨[⟨1, "u", 5, some "free", "creator", "9:16"⟩], []⟩ 1 (-4)
        = (.ok 9, db2) :=
  ⟨(debit_no_positivity_check _ 1 0 ⟨1, "u", 5, some "free", "creator", "9:16"⟩
      (by decide) (by decide) (by decide)).elim fun db2 h => ⟨db2, h.1⟩,
   (debit_no_positivity_check _ 1 (-4) ⟨1, "u", 5, some "free", "creator", "9:16"⟩
      (by decide) (by decide) (by decide)).elim fun db2 h => ⟨db2, h.1⟩⟩

/-- C10: when refund_credits or add_credits is invoked for a user with no
profiles row, the UPDATE matches nothing, the returned balance is NULL
(none, not a distinct error), the profiles table is unchanged, and a
credit transaction for that user is nevertheless appended. -/
theorem refund_add_missing_account
    (db : DB) (uid : Nat) (amt : Int) (ty : String)
    (hnone : db.profiles.find? (fun q => q.id == uid) = none) :
    refund_credits db uid amt
      = (none, { db with credit_transactions :=
          db.credit_transactions ++ [⟨uid, amt, "refund", "Video generation refund"⟩] }) ∧
    add_credits db uid amt ty
      = (none, { db with credit_transactions :=
          db.credit_transactions ++ [⟨uid, amt, ty,
            if ty == "subscription" then "Monthly subscription credits"
            else "Credit purchase"⟩] }) := by
  have hupd : ∀ g : Profile → Profile, updateProfiles db uid g = db := by
    intro g
    simp only [updateProfiles]
    rw [map_upd_of_none (fun p => p.id) g uid db.profiles hnone]
  have hc0 : creditsOf db uid = none := by simp [creditsOf, hnone]
  constructor
  · simp only [refund_credits, hupd, hc0]
  · simp only [add_credits, hupd, hc0]

/-- Witness for C10: refunding and granting 5 credits to the absent user 9
in a one-account database returns NULL and still logs a transaction. -/
theorem refund_add_missing_account_witness :
    refund_credits ⟨[⟨1, "u", 5, some "free", "creator", "9:16"⟩], []⟩ 9 5
      = (none, ⟨[⟨1, "u", 5, some "free", "creator", "9:16"⟩],
          [⟨9, 5, "refund", "Video generation refund"⟩]⟩) ∧
    add_credits ⟨[⟨1, "u", 5, some "free", "creator", "9:16"⟩], []⟩ 9 5 "credit"
      = (none, ⟨[⟨1, "u", 5, some "free", "creator", "9:16"⟩],
          [⟨9, 5, "credit", "Credit purchase"⟩]⟩) :=
  refund_add_missing_account ⟨[⟨1, "u", 5, some "free", "creator", "9:16"⟩], []⟩
    9 5 "credit" (by decide)

/-- C3: evaluation of the tier classifier at the claim's inputs.  The
case-insensitive behaviour, the NULL and empty defaults, and the derived
aspect ratios are as claimed, but premium_pro_yearly — which the spec and
the schema's own plan lists place in the professional tier — classifies
as creator, because the LIKE pattern only accepts names that end in the
suffix and the legacy list does not contain the yearly variants. -/
theorem get_tier_from_plan_examples :
    get_tier_from_plan (some "max_pro") = "professional" ∧
    get_tier_from_plan (some "PREMIUM_PRO") = "professional" ∧
    get_tier_from_plan (some "max") = "creator" ∧
    get_tier_from_plan none = "creator" ∧
    get_tier_from_plan (some "") = "creator" ∧
    aspectFromTier (get_tier_from_plan (some "max")) = "9:16" ∧
    aspectFromTier (get_tier_from_plan (some "max_pro")) = "16:9" ∧
    get_tier_from_plan (some "premium_pro_yearly") = "creator" := by
  decide

/-- C8: the explicit legacy allow-list branch of get_tier_from_plan is
redundant; every name in it already ends with the suffix, so the
classifier is extensionally equal to the plain case-insensitive suffix
test with NULL mapped to creator. -/
theorem allowlist_redundant (o : Option String) :
    get_tier_from_plan o = tierBySuffix o := by
  cases o with
  | none => rfl
  | some s =>
    simp only [get_tier_from_plan, tierBySuffix]
    by_cases h0 : s = ""
    · subst h0
      decide
    · rw [if_neg h0]
      by_cases h1 : sqlEndsWith (sqlLower s) "_pro" = true
      · rw [if_pos h1, if_pos h1]
      · rw [if_neg h1, if_neg h1, if_neg]
        intro hmem
        apply h1
        rcases List.mem_cons.mp hmem with h | hmem
        · rw [h]; decide
        rcases List.mem_cons.mp hmem with h | hmem
        · rw [h]; decide
        rcases List.mem_cons.mp hmem with h | hmem
        · rw [h]; decide
        rcases List.mem_cons.mp hmem with h | hmem
        · rw [h]; decide
        exact absurd hmem (List.not_mem_nil _)

/-- C7: changing the plan of an existing account from pro to pro_pro
rewrites only the plan and the derived columns of that row — the derived
tier flips from creator (the tier of pro) to professional and the aspect
column to 16:9 — while the credits field of the row and the whole
transaction log are untouched. -/
theorem plan_change_frame
    (db : DB) (uid : Nat) (p : Profile)
    (hp : db.profiles.find? (fun q => q.id == uid) = some p) :
    get_tier_from_plan (some "pro") = "creator" ∧
    (apply_plan_change db uid "pro_pro").profiles.find? (fun q => q.id == uid)
      = some { p with
          plan := some "pro_pro",
          plan_family := "professional",
          preferred_aspect := "16:9" } ∧
    (apply_plan_change db uid "pro_pro").credit_transactions
      = db.credit_transactions := by
  refine ⟨by decide, ?_, rfl⟩
  have hfam : get_tier_from_plan (some "pro_pro") = "professional" := by decide
  have hid : ∀ q : Profile,
      (update_tier_on_plan_change { q with plan := some "pro_pro" }).id = q.id :=
    fun _ => rfl
  show (updateProfiles db uid
      fun q => update_tier_on_plan_change { q with plan := some "pro_pro" }).profiles.find?
      (fun q => q.id == uid) = _
  rw [find_updateProfiles db uid _ hid, hp]
  show some (update_tier_on_plan_change { p with plan := some "pro_pro" }) = _
  simp [update_tier_on_plan_change, hfam, aspectFromTier]

/-- Witness for C7 at a one-account database whose account has plan pro. -/
theorem plan_change_frame_witness :
    (apply_plan_change ⟨[⟨1, "u", 100, some "pro", "creator", "9:16"⟩], []⟩ 1
        "pro_pro").profiles.find? (fun q => q.id == 1)
      = some ⟨1, "u", 100, some "pro_pro", "professional", "16:9"⟩ ∧
    (apply_plan_change ⟨[⟨1, "u", 100, some "pro", "creator", "9:16"⟩], []⟩ 1
        "pro_pro").credit_transactions = [] :=
  ⟨(plan_change_frame ⟨[⟨1, "u", 100, some "pro", "creator", "9:16"⟩], []⟩ 1
      ⟨1, "u", 100, some "pro", "creator", "9:16"⟩ (by decide)).2.1,
   (plan_change_frame ⟨[⟨1, "u", 100, some "pro", "creator", "9:16"⟩], []⟩ 1
      ⟨1, "u", 100, some "pro", "creator", "9:16"⟩ (by decide)).2.2⟩

/-- C5 counterexample: in the VideoGenerator path the credits required
before a job is created for a 30-second basic-quality request are 3, not
30, so 1 credit = 1 second does not hold for every duration and quality. -/
theorem requiredCredits_not_duration :
    requiredCredits 30 .basic = 3 ∧ requiredCredits 30 .basic ≠ 30 := by
  decide

/-- C5 amended: the VideoGenerator computes the required credits as the
number of 10-second clips covering the duration (10 times numClips is the
least multiple of 10 at or above the duration) times a quality multiplier
— 1 for basic, 3 for 720p, 5 for 1080p — and when the balance is below
this amount it blocks the request, so no job is created; otherwise the
request is sent. -/
theorem generator_cost_and_guard (credits : Int) (d : Nat) (q : Quality) :
    (d ≤ 10 * numClips d ∧ 10 * numClips d < d + 10) ∧
    (requiredCredits d .basic = numClips d ∧
     requiredCredits d .pro_720p = 3 * numClips d ∧
     requiredCredits d .pro_1080p = 5 * numClips d) ∧
    (credits < (requiredCredits d q : Int) → handleGenerate credits d q = none) ∧
    ((requiredCredits d q : Int) ≤ credits →
      handleGenerate credits d q = some ⟨d, q⟩) := by
  refine ⟨⟨?_, ?_⟩, ⟨rfl, Nat.mul_comm _ 3, Nat.mul_comm _ 5⟩, ?_, ?_⟩
  · unfold numClips; omega
  · unfold numClips; omega
  · intro h
    simp [handleGenerate, h]
  · intro h
    simp [handleGenerate, not_lt.mpr h]

/-- Witness for C5 amended: with 2 credits, a 30-second basic request
needs 3 credits and is blocked. -/
theorem generator_cost_and_guard_witness :
    handleGenerate 2 30 .basic = none :=
  (generator_cost_and_guard 2 30 .basic).2.2.1 (by decide)

/-- C6 (against validate_duration, modelled from the spec): a professional
account's requested duration is accepted exactly on 6..60 inclusive — in
particular 60 is accepted and 5 is rejected with InvalidDuration — and a
creator account's request is silently overridden to the model's fixed
duration whatever duration was requested. -/
theorem duration_enforcement (fd d : Nat) :
    (6 ≤ d → d ≤ 60 → validate_duration "professional" fd d = .ok d) ∧
    (¬(6 ≤ d ∧ d ≤ 60) →
      validate_duration "professional" fd d = .error .InvalidDuration) ∧
    validate_duration "professional" fd 60 = .ok 60 ∧
    validate_duration "professional" fd 5 = .error .InvalidDuration ∧
    validate_duration "creator" fd d = .ok fd := by
  refine ⟨?_, ?_, ?_, ?_, ?_⟩
  · intro h1 h2
    simp [validate_duration, h1, h2]
  · intro h
    simp [validate_duration, h]
  · simp [validate_duration]
  · simp [validate_duration]
  · simp [validate_duration]

/-- Witness for C6 with the 8-second fixed model duration: 45 seconds is
accepted for professional, 5 is rejected, and a creator request for 45
seconds receives 8. -/
theorem duration_enforcement_witness :
    validate_duration "professional" 8 45 = .ok 45 ∧
    validate_duration "professional" 8 5 = .error .InvalidDuration ∧
    validate_duration "creator" 8 45 = .ok 8 :=
  ⟨(duration_enforcement 8 45).1 (by decide) (by decide),
   (duration_enforcement 8 5).2.2.2.1,
   (duration_enforcement 8 45).2.2.2.2⟩

/-- C4 (against apply_terminal_signal, modelled from the spec): a job that
is already terminal absorbs every further terminal signal with no state
mutation and no refund, and delivering the same failure signal twice to a
generating job mutates the state once, appending exactly one refund
transaction across the two deliveries. -/
theorem terminal_signals_idempotent
    (s : Sys) (jobId : Nat) (j : VideoJob)
    (hj : s.jobs.find? (fun k => k.id == jobId) = some j) :
    (∀ sig, j.status = "completed" ∨ j.status = "failed" →
      apply_terminal_signal s jobId sig = s) ∧
    (j.status = "generating" → ∀ msg,
      apply_terminal_signal (apply_terminal_signal s jobId (.jobFailed msg))
          jobId (.jobFailed msg)
        = apply_terminal_signal s jobId (.jobFailed msg) ∧
      (apply_terminal_signal s jobId (.jobFailed msg)).db.credit_transactions
        = s.db.credit_transactions
          ++ [⟨j.user_id, (j.duration : Int), "refund", "Video generation refund"⟩]) := by
  constructor
  · intro sig hterm
    simp [apply_terminal_signal, hj, hterm]
  · intro hgen msg
    have hterm : ¬(j.status = "completed" ∨ j.status = "failed") := by
      rw [hgen]
      decide
    have hs1 : apply_terminal_signal s jobId (.jobFailed msg)
        = { db := (refund_credits s.db j.user_id (j.duration : Int)).2,
            jobs := s.jobs.map fun k =>
              if k.id == jobId then { k with status := "failed", error := some msg }
              else k } := by
      simp only [apply_terminal_signal, hj, if_neg hterm]
    have hfind : ((s.jobs.map fun k =>
        if k.id == jobId then { k with status := "failed", error := some msg }
        else k).find? fun k => k.id == jobId)
        = some { j with status := "failed", error := some msg } := by
      rw [find_map_upd (fun k => k.id)
        (fun k => { k with status := "failed", error := some msg }) jobId
        (fun _ => rfl) s.jobs, hj]
      rfl
    refine ⟨?_, by rw [hs1]; rfl⟩
    rw [hs1]
    simp only [apply_terminal_signal]
    rw [hfind]
    simp

/-- Witness for C4: a generating 8-second job for a one-account database;
the duplicated failure signal is absorbed and exactly one 8-credit refund
transaction is appended. -/
theorem terminal_signals_idempotent_witness :
    apply_terminal_signal
        (apply_terminal_signal
          ⟨⟨[⟨1, "u", 92, some "free", "creator", "9:16"⟩],
            [⟨1, -8, "debit", "Video generation"⟩]⟩,
           [⟨5, 1, "generating", 50, none, 8, none⟩]⟩ 5 (.jobFailed "boom"))
        5 (.jobFailed "boom")
      = apply_terminal_signal
          ⟨⟨[⟨1, "u", 92, some "free", "creator", "9:16"⟩],
            [⟨1, -8, "debit", "Video generation"⟩]⟩,
           [⟨5, 1, "generating", 50, none, 8, none⟩]⟩ 5 (.jobFailed "boom") ∧
    (apply_terminal_signal
        ⟨⟨[⟨1, "u", 92, some "free", "creator", "9:16"⟩],
          [⟨1, -8, "debit", "Video generation"⟩]⟩,
         [⟨5, 1, "generating", 50, none, 8, none⟩]⟩ 5
        (.jobFailed "boom")).db.credit_transactions
      = [⟨1, -8, "debit", "Video generation"⟩,
         ⟨1, 8, "refund", "Video generation refund"⟩] := by
  have h := (terminal_signals_idempotent
    ⟨⟨[⟨1, "u", 92, some "free", "creator", "9:16"⟩],
      [⟨1, -8, "debit", "Video generation"⟩]⟩,
     [⟨5, 1, "generating", 50, none, 8, none⟩]⟩ 5
    ⟨5, 1, "generating", 50, none, 8, none⟩ (by decide)).2 (by decide) "boom"
  exact ⟨h.1, h.2.trans (by decide)⟩

/-- One ledger operation applied to an account: a debit via
decrement_credits, a refund via refund_credits, or a purchase or
subscription grant via add_credits. -/
inductive LedgerOp where
  | debit (amt : Int)
  | refund (amt : Int)
  | grant (amt : Int) (ty : String)

/-- The database state after running one ledger operation against account
uid (a raised exception leaves the state unchanged). -/
def runOp (uid : Nat) (db : DB) : LedgerOp → DB
  | .debit amt => (decrement_credits db uid amt).2
  | .refund amt => (refund_credits db uid amt).2
  | .grant amt ty => (add_credits db uid amt ty).2

/-- The database state after running a sequence of ledger operations. -/
def runOps (uid : Nat) (db : DB) (ops : List LedgerOp) : DB :=
  ops.foldl (runOp uid) db

/-- Every single ledger operation preserves the difference between the
account's balance and its transaction sum. -/
theorem runOp_preserves (uid : Nat) (db : DB) (op : LedgerOp) (c : Int)
    (hc : creditsOf db uid = some c) :
    ∃ c2, creditsOf (runOp uid db op) uid = some c2 ∧
      c2 - txnSum (runOp uid db op) uid = c - txnSum db uid := by
  obtain ⟨p, hp, hpc⟩ := Option.map_eq_some'.mp hc
  have hself : (uid == uid) = true := by simp
  cases op with
  | debit amt =>
    by_cases hlt : p.credits < amt
    · have : runOp uid db (.debit amt) = db := by
        simp [runOp, decrement_credits, hc, hpc ▸ hlt]
      rw [this]
      exact ⟨c, hc, rfl⟩
    · have hrun : runOp uid db (.debit amt)
          = ⟨(updateProfiles db uid fun q => { q with credits := q.credits - amt }).profiles,
             db.credit_transactions ++ [⟨uid, -amt, "debit", "Video generation"⟩]⟩ := by
        have hlt2 : ¬(c < amt) := hpc ▸ hlt
        simp only [runOp, decrement_credits, hc, if_neg hlt2]
        rfl
      refine ⟨c - amt, ?_, ?_⟩
      · rw [hrun]
        show ((updateProfiles db uid fun q => { q with credits := q.credits - amt }).profiles.find?
            fun q => q.id == uid).map (·.credits) = some (c - amt)
        rw [find_updateProfiles db uid
          (fun q => { q with credits := q.credits - amt }) (fun _ => rfl), hp]
        simp [hpc]
      · rw [hrun]
        rw [show (⟨(updateProfiles db uid fun q => { q with credits := q.credits - amt }).profiles,
            db.credit_transactions ++ [⟨uid, -amt, "debit", "Video generation"⟩]⟩ : DB)
          = ⟨(updateProfiles db uid fun q => { q with credits := q.credits - amt }).profiles,
            db.credit_transactions ++ [(⟨uid, -amt, "debit", "Video generation"⟩ : CreditTransaction)]⟩ from rfl,
          txnSum_append]
        rw [txnSum_profiles_irrel _ db.profiles]
        simp only [hself, if_pos]
        show c - amt - (txnSum db uid + -amt) = c - txnSum db uid
        ring
  | refund amt =>
    have hrun : runOp uid db (.refund amt)
        = ⟨(updateProfiles db uid fun q => { q with credits := q.credits + amt }).profiles,
           db.credit_transactions ++ [⟨uid, amt, "refund", "Video generation refund"⟩]⟩ := rfl
    refine ⟨c + amt, ?_, ?_⟩
    · rw [hrun]
      show ((updateProfiles db uid fun q => { q with credits := q.credits + amt }).profiles.find?
          fun q => q.id == uid).map (·.credits) = some (c + amt)
      rw [find_updateProfiles db uid
        (fun q => { q with credits := q.credits + amt }) (fun _ => rfl), hp]
      simp [hpc]
    · rw [hrun, txnSum_append, txnSum_profiles_irrel _ db.profiles]
      simp only [hself, if_pos]
      show c + amt - (txnSum db uid + amt) = c - txnSum db uid
      ring
  | grant amt ty =>
    have hrun : runOp uid db (.grant amt ty)
        = ⟨(updateProfiles db uid fun q => { q with credits := q.credits + amt }).profiles,
           db.credit_transactions ++ [⟨uid, amt, ty,
             if ty == "subscription" then "Monthly subscription credits"
             else "Credit purchase"⟩]⟩ := rfl
    refine ⟨c + amt, ?_, ?_⟩
    · rw [hrun]
      show ((updateProfiles db uid fun q => { q with credits := q.credits + amt }).profiles.find?
          fun q => q.id == uid).map (·.credits) = some (c + amt)
      rw [find_updateProfiles db uid
        (fun q => { q with credits := q.credits + amt }) (fun _ => rfl), hp]
      simp [hpc]
    · rw [hrun, txnSum_append, txnSum_profiles_irrel _ db.profiles]
      simp only [hself, if_pos]
      show c + amt - (txnSum db uid + amt) = c - txnSum db uid
      ring

/-- A sequence of ledger operations preserves the difference between the
account's balance and its transaction sum. -/
theorem runOps_preserves (uid : Nat) (ops : List LedgerOp) :
    ∀ db c, creditsOf db uid = some c →
      ∃ c2, creditsOf (runOps uid db ops) uid = some c2 ∧
        c2 - txnSum (runOps uid db ops) uid = c - txnSum db uid := by
  induction ops with
  | nil => exact fun db c hc => ⟨c, hc, rfl⟩
  | cons op ops ih =>
    intro db c hc
    obtain ⟨c1, h1, h2⟩ := runOp_preserves uid db op c hc
    obtain ⟨c2, h3, h4⟩ := ih (runOp uid db op) c1 h1
    exact ⟨c2, h3, by rw [show runOps uid db (op :: ops)
      = runOps uid (runOp uid db op) ops from rfl] at *; omega⟩

/-- C2 counterexample: immediately after account creation the starting
grant of 10 credits has no transaction row, so the account's credits (10)
differ from the sum of its recorded transactions (0) and conservation as
claimed fails. -/
theorem conservation_fails_at_creation :
    creditsOf (handle_new_user ⟨[], []⟩ 1 "u") 1 = some 10 ∧
    txnSum (handle_new_user ⟨[], []⟩ 1 "u") 1 = 0 ∧
    creditsOf (handle_new_user ⟨[], []⟩ 1 "u") 1
      ≠ some (txnSum (handle_new_user ⟨[], []⟩ 1 "u") 1) := by
  decide

/-- C2 amended: the starting grant is never recorded as a transaction, so
for an account created by handle_new_user the invariant that holds at all
times under any sequence of ledger operations is credits = 10 + the
transaction sum (10 being the unrecorded starting grant), not
credits = transaction sum. -/
theorem ledger_conservation_amended
    (db : DB) (uid : Nat) (name : String) (ops : List LedgerOp)
    (hfresh : db.profiles.find? (fun q => q.id == uid) = none)
    (hnotx : txnSum db uid = 0) :
    creditsOf (handle_new_user db uid name) uid = some 10 ∧
    txnSum (handle_new_user db uid name) uid = 0 ∧
    ∃ c, creditsOf (runOps uid (handle_new_user db uid name) ops) uid = some c ∧
      c = 10 + txnSum (runOps uid (handle_new_user db uid name) ops) uid := by
  have h10 : creditsOf (handle_new_user db uid name) uid = some 10 := by
    show ((db.profiles ++ [(⟨uid, name, 10, some "free", "creator", "9:16"⟩ : Profile)]).find?
        fun q => q.id == uid).map (·.credits) = some 10
    rw [List.find?_append, hfresh]
    simp
  have h0 : txnSum (handle_new_user db uid name) uid = 0 := hnotx
  obtain ⟨c2, hc2, hdiff⟩ := runOps_preserves uid ops (handle_new_user db uid name) 10 h10
  exact ⟨h10, h0, c2, hc2, by omega⟩

/-- Witness for C2 amended: a fresh account that debits 4, is refunded 4
and receives a 50-credit subscription grant keeps credits equal to 10 plus
its transaction sum. -/
theorem ledger_conservation_amended_witness :
    ∃ c, creditsOf (runOps 1 (handle_new_user ⟨[], []⟩ 1 "u")
        [.debit 4, .refund 4, .grant 50 "subscription"]) 1 = some c ∧
      c = 10 + txnSum (runOps 1 (handle_new_user ⟨[], []⟩ 1 "u")
        [.debit 4, .refund 4, .grant 50 "subscription"]) 1 :=
  (ledger_conservation_amended ⟨[], []⟩ 1 "u"
    [.debit 4, .refund 4, .grant 50 "subscription"] (by decide) (by decide)).2.2

end Vykso
